import Mathlib

/-!
Verification of the std140 layout-compatibility library.

The library (crates `std140` and `std140_macros`) declares Rust value types
(`float`, `vec2`, ..., `mat4x4`, `array<T, N>`) whose memory layout is meant to
match the GLSL std140 uniform-block convention, and an attribute macro
`#[repr_std140]` that forces `#[repr(C, align(16))]` on a user struct and
asserts every field type implements the `ReprStd140` marker trait.

The sizes, alignments and field offsets of these Rust types are fixed by the
`#[repr(C, align(N))]` layout algorithm of the Rust compiler: fields are placed
in declaration order, each at the previous end rounded up to the field's
alignment; the struct's alignment is the maximum of the forced alignment and
every field's alignment; the struct's size is the end of the last field rounded
up to the struct's alignment.  We embed that algorithm (`reprCStruct`,
`fieldOffsets`) together with the concrete type declarations of the crate, and
prove or refute the layout claims against it.
-/

namespace Std140

/-- Size and alignment in bytes of a Rust type. -/
structure Layout where
  size : Nat
  align : Nat
deriving DecidableEq

/-- Round `n` up to the next multiple of `a` (used by the Rust layout
algorithm; `a` is always a positive power of two here). -/
def roundUp (n a : Nat) : Nat :=
  (n + a - 1) / a * a

/-- Offsets assigned by the Rust `repr(C)` algorithm to a list of fields, in
declaration order, starting from offset `ofs`: each field goes at the current
offset rounded up to the field's alignment. -/
def fieldOffsets (ofs : Nat) : List Layout → List Nat
  | [] => []
  | f :: rest =>
    roundUp ofs f.align :: fieldOffsets (roundUp ofs f.align + f.size) rest

/-- The end offset (exclusive) of the last field placed by `repr(C)`. -/
def structEnd (ofs : Nat) : List Layout → Nat
  | [] => ofs
  | f :: rest => structEnd (roundUp ofs f.align + f.size) rest

/-- Alignment of a `#[repr(C, align(forced))]` struct: the maximum of the
forced alignment and every field's alignment. -/
def structAlign (forced : Nat) (fs : List Layout) : Nat :=
  fs.foldl (fun a f => max a f.align) forced

/-- Layout of a `#[repr(C, align(forced))]` struct with the given fields:
fields placed sequentially, size rounded up to the struct's alignment. -/
def reprCStruct (forced : Nat) (fs : List Layout) : Layout :=
  { size := roundUp (structEnd 0 fs) (structAlign forced fs)
    align := structAlign forced fs }

/-- Layout of Rust's `f32` primitive. -/
def f32Layout : Layout := ⟨4, 4⟩

/-- Layout of Rust's `i32` primitive. -/
def i32Layout : Layout := ⟨4, 4⟩

/-- Layout of Rust's `u32` primitive. -/
def u32Layout : Layout := ⟨4, 4⟩

/-- Layout of `#[repr(u32)] enum boolean`: exactly a `u32`. -/
def booleanLayout : Layout := ⟨4, 4⟩

/-- `#[repr(C, align(4))] struct float(f32)`. -/
def floatLayout : Layout := reprCStruct 4 [f32Layout]

/-- `#[repr(C, align(4))] struct int(i32)`. -/
def intLayout : Layout := reprCStruct 4 [i32Layout]

/-- `#[repr(C, align(4))] struct uint(u32)`. -/
def uintLayout : Layout := reprCStruct 4 [u32Layout]

/-- `#[repr(C, align(8))] struct vec2(f32, f32)`. -/
def vec2Layout : Layout := reprCStruct 8 [f32Layout, f32Layout]

/-- `#[repr(C, align(16))] struct vec3(f32, f32, f32)`. -/
def vec3Layout : Layout := reprCStruct 16 [f32Layout, f32Layout, f32Layout]

/-- `#[repr(C, align(16))] struct vec4(f32, f32, f32, f32)`. -/
def vec4Layout : Layout := reprCStruct 16 [f32Layout, f32Layout, f32Layout, f32Layout]

/-- `#[repr(C, align(8))] struct ivec2(i32, i32)`. -/
def ivec2Layout : Layout := reprCStruct 8 [i32Layout, i32Layout]

/-- `#[repr(C, align(16))] struct ivec3(i32, i32, i32)`. -/
def ivec3Layout : Layout := reprCStruct 16 [i32Layout, i32Layout, i32Layout]

/-- `#[repr(C, align(16))] struct ivec4(i32, i32, i32, i32)`. -/
def ivec4Layout : Layout := reprCStruct 16 [i32Layout, i32Layout, i32Layout, i32Layout]

/-- `#[repr(C, align(8))] struct uvec2(u32, u32)`. -/
def uvec2Layout : Layout := reprCStruct 8 [u32Layout, u32Layout]

/-- `#[repr(C, align(16))] struct uvec3(u32, u32, u32)`. -/
def uvec3Layout : Layout := reprCStruct 16 [u32Layout, u32Layout, u32Layout]

/-- `#[repr(C, align(16))] struct uvec4(u32, u32, u32, u32)`. -/
def uvec4Layout : Layout := reprCStruct 16 [u32Layout, u32Layout, u32Layout, u32Layout]

/-- `#[repr(C, align(8))] struct bvec2(boolean, boolean)`. -/
def bvec2Layout : Layout := reprCStruct 8 [booleanLayout, booleanLayout]

/-- `#[repr(C, align(16))] struct bvec3(boolean, boolean, boolean)`. -/
def bvec3Layout : Layout := reprCStruct 16 [booleanLayout, booleanLayout, booleanLayout]

/-- `#[repr(C, align(16))] struct bvec4(boolean, boolean, boolean, boolean)`. -/
def bvec4Layout : Layout := reprCStruct 16 [booleanLayout, booleanLayout, booleanLayout, booleanLayout]

/-- `#[repr(C, align(16))] struct ArrayElementWrapper<T> { element: T }`. -/
def wrapperLayout (t : Layout) : Layout := reprCStruct 16 [t]

/-- Layout of the Rust builtin array `[W; n]`: `n` consecutive copies of `W`. -/
def rustArrayLayout (w : Layout) (n : Nat) : Layout :=
  ⟨n * w.size, w.align⟩

/-- Layout of `struct array<T, n> { internal: [ArrayElementWrapper<T>; n] }`.
The struct has default (Rust) representation with a single field, so it takes
that field's size and alignment. -/
def arrayLayout (t : Layout) (n : Nat) : Layout :=
  rustArrayLayout (wrapperLayout t) n

/-- Layout of a matrix type `struct matCxR { columns: array<vecR, C> }`:
a single-field struct holding the column array. -/
def matLayout (col : Layout) (c : Nat) : Layout :=
  arrayLayout col c

def mat2x2Layout : Layout := matLayout vec2Layout 2
def mat2x3Layout : Layout := matLayout vec3Layout 2
def mat2x4Layout : Layout := matLayout vec4Layout 2
def mat3x2Layout : Layout := matLayout vec2Layout 3
def mat3x3Layout : Layout := matLayout vec3Layout 3
def mat3x4Layout : Layout := matLayout vec4Layout 3
def mat4x2Layout : Layout := matLayout vec2Layout 4
def mat4x3Layout : Layout := matLayout vec3Layout 4
def mat4x4Layout : Layout := matLayout vec4Layout 4

/-- The sixteen primitive scalar/vector types of the catalog. -/
inductive PrimTy
  | float | int | uint | boolean
  | vec2 | vec3 | vec4
  | ivec2 | ivec3 | ivec4
  | uvec2 | uvec3 | uvec4
  | bvec2 | bvec3 | bvec4
deriving DecidableEq

def PrimTy.layout : PrimTy → Layout
  | .float => floatLayout
  | .int => intLayout
  | .uint => uintLayout
  | .boolean => booleanLayout
  | .vec2 => vec2Layout
  | .vec3 => vec3Layout
  | .vec4 => vec4Layout
  | .ivec2 => ivec2Layout
  | .ivec3 => ivec3Layout
  | .ivec4 => ivec4Layout
  | .uvec2 => uvec2Layout
  | .uvec3 => uvec3Layout
  | .uvec4 => uvec4Layout
  | .bvec2 => bvec2Layout
  | .bvec3 => bvec3Layout
  | .bvec4 => bvec4Layout

/-- The nine matrix types of the catalog. -/
inductive MatTy
  | m2x2 | m2x3 | m2x4
  | m3x2 | m3x3 | m3x4
  | m4x2 | m4x3 | m4x4
deriving DecidableEq

def MatTy.layout : MatTy → Layout
  | .m2x2 => mat2x2Layout
  | .m2x3 => mat2x3Layout
  | .m2x4 => mat2x4Layout
  | .m3x2 => mat3x2Layout
  | .m3x3 => mat3x3Layout
  | .m3x4 => mat3x4Layout
  | .m4x2 => mat4x2Layout
  | .m4x3 => mat4x3Layout
  | .m4x4 => mat4x4Layout

/-- The types that can occur in an std140 block: the sixteen primitives, the
nine matrices, `array<T, n>`, and structs accepted by `#[repr_std140]`
(whose generated representation is `#[repr(C, align(16))]` with the declared
fields in declaration order). -/
inductive Ty
  | prim (p : PrimTy)
  | mat (m : MatTy)
  | arr (elem : Ty) (n : Nat)
  | strukt (fields : List Ty)

mutual

def Ty.layout : Ty → Layout
  | .prim p => p.layout
  | .mat m => m.layout
  | .arr t n => arrayLayout t.layout n
  | .strukt fs => reprCStruct 16 (Ty.layoutList fs)

def Ty.layoutList : List Ty → List Layout
  | [] => []
  | t :: ts => t.layout :: Ty.layoutList ts

end

/-- `Std140ArrayElement` capability: granted to every primitive and matrix type
(by an explicit `unsafe impl` in the source) and to every `#[repr_std140]`
struct (by the blanket impl for `Std140Struct`); `array` itself only implements
`ReprStd140`, not `Std140ArrayElement`. -/
def Ty.isArrayElement : Ty → Bool
  | .prim _ => true
  | .mat _ => true
  | .arr _ _ => false
  | .strukt _ => true

mutual

/-- Well-formedness: every `array` element type carries the
`Std140ArrayElement` capability (checked by the bound `T: Std140ArrayElement`
on `array`), recursively. -/
def Ty.wf : Ty → Bool
  | .prim _ => true
  | .mat _ => true
  | .arr t _ => t.isArrayElement && t.wf
  | .strukt fs => Ty.wfList fs

def Ty.wfList : List Ty → Bool
  | [] => true
  | t :: ts => t.wf && Ty.wfList ts

end

theorem roundUp_mod (n a : Nat) : roundUp n a % a = 0 :=
  Nat.mul_mod_left _ _

theorem roundUp_zero {a : Nat} (h : 0 < a) : roundUp 0 a = 0 := by
  unfold roundUp
  rw [Nat.zero_add, Nat.div_eq_of_lt (Nat.sub_lt h Nat.one_pos), Nat.zero_mul]

theorem le_roundUp (n : Nat) {a : Nat} (h : 0 < a) : n ≤ roundUp n a := by
  unfold roundUp
  cases n with
  | zero => exact Nat.zero_le _
  | succ m =>
    have h1 : m + 1 + a - 1 = m + a := by omega
    rw [h1, Nat.add_div_right m h, Nat.succ_mul]
    have h2 : m % a < a := Nat.mod_lt _ h
    have h3 : m / a * a + m % a = m := Nat.div_add_mod' m a
    omega

theorem structAlign_eq_of_le (forced : Nat) (fs : List Layout)
    (hf : ∀ l ∈ fs, l.align ≤ forced) : structAlign forced fs = forced := by
  induction fs with
  | nil => rfl
  | cons f rest ih =>
    unfold structAlign
    simp only [List.foldl_cons]
    rw [Nat.max_eq_left (hf f (List.mem_cons_self f rest))]
    exact ih fun l hl => hf l (List.mem_cons_of_mem f hl)

theorem le_structAlign (forced : Nat) (fs : List Layout) : forced ≤ structAlign forced fs := by
  induction fs generalizing forced with
  | nil => exact Nat.le_refl _
  | cons f rest ih =>
    unfold structAlign
    simp only [List.foldl_cons]
    exact Nat.le_trans (Nat.le_max_left _ _) (ih (max forced f.align))

mutual

theorem Ty.align_le (t : Ty) : t.layout.align ≤ 16 := by
  match t with
  | .prim p => cases p <;> decide
  | .mat m => cases m <;> decide
  | .arr e n =>
    have h := Ty.align_le e
    simp only [Ty.layout, arrayLayout, rustArrayLayout, wrapperLayout, reprCStruct,
      structAlign, List.foldl_cons, List.foldl_nil]
    exact Nat.max_le.mpr ⟨Nat.le_refl 16, h⟩
  | .strukt fs =>
    have h := Ty.alignList_le fs
    simp only [Ty.layout, reprCStruct]
    exact Nat.le_of_eq (structAlign_eq_of_le 16 _ h)

theorem Ty.alignList_le (ts : List Ty) : ∀ l ∈ Ty.layoutList ts, l.align ≤ 16 := by
  match ts with
  | [] => intro l hl; simp [Ty.layoutList] at hl
  | t :: ts' =>
    intro l hl
    simp only [Ty.layoutList, List.mem_cons] at hl
    cases hl with
    | inl h => rw [h]; exact Ty.align_le t
    | inr h => exact Ty.alignList_le ts' l h

end

theorem Ty.align_pos (t : Ty) : 0 < t.layout.align := by
  match t with
  | .prim p => cases p <;> decide
  | .mat m => cases m <;> decide
  | .arr e n =>
    simp only [Ty.layout, arrayLayout, rustArrayLayout, wrapperLayout, reprCStruct]
    exact Nat.lt_of_lt_of_le (by decide) (le_structAlign 16 _)
  | .strukt fs =>
    simp only [Ty.layout, reprCStruct]
    exact Nat.lt_of_lt_of_le (by decide) (le_structAlign 16 _)

theorem Ty.alignList_pos (ts : List Ty) : ∀ l ∈ Ty.layoutList ts, 0 < l.align := by
  induction ts with
  | nil => intro l hl; simp [Ty.layoutList] at hl
  | cons t ts' ih =>
    intro l hl
    simp only [Ty.layoutList, List.mem_cons] at hl
    cases hl with
    | inl h => rw [h]; exact Ty.align_pos t
    | inr h => exact ih l h

theorem wrapperLayout_size {L : Layout} (hpos : 0 < L.align) (hle : L.align ≤ 16) :
    (wrapperLayout L).size = roundUp L.size 16 := by
  simp only [wrapperLayout, reprCStruct, structEnd, structAlign, List.foldl_cons, List.foldl_nil]
  rw [Nat.max_eq_left hle, roundUp_zero hpos, Nat.zero_add]

theorem fieldOffsets_chain (ls : List Layout) :
    ∀ ofs : Nat, (∀ l ∈ ls, 0 < l.align) →
      List.Chain' (fun a b => a.1 + a.2.size ≤ b.1) ((fieldOffsets ofs ls).zip ls) := by
  induction ls with
  | nil => intro ofs _; simp [fieldOffsets]
  | cons f rest ih =>
    intro ofs h
    cases rest with
    | nil => simp [fieldOffsets]
    | cons g rest' =>
      simp only [fieldOffsets, List.zip_cons_cons]
      rw [List.chain'_cons]
      refine ⟨le_roundUp _ (h g (by simp)), ?_⟩
      have := ih (roundUp ofs f.align + f.size) fun l hl => h l (List.mem_cons_of_mem f hl)
      simpa only [fieldOffsets, List.zip_cons_cons] using this

/-- The `PointLight` struct of the library documentation and the spec's
concrete scenario: `#[repr_std140] struct PointLight { position: vec3,
intensity: float }`, i.e. a `#[repr(C, align(16))]` struct with those two
fields in declaration order. -/
def PointLightTy : Ty := .strukt [.prim .vec3, .prim .float]

/-- Claim C1: evaluation of the sixteen catalog layouts.  The scalars are `⟨4, 4⟩`,
the 2-vectors `⟨8, 8⟩` and the 4-vectors `⟨16, 16⟩` as the §4.1 table states,
but every 3-vector has size 16, not the table's 12: Rust rounds a struct's
size up to its alignment, so `#[repr(C, align(16))]` forces the 3-vectors to
16 bytes. -/
theorem primitive_layouts_eval :
    (floatLayout = ⟨4, 4⟩ ∧ intLayout = ⟨4, 4⟩ ∧ uintLayout = ⟨4, 4⟩ ∧
      booleanLayout = ⟨4, 4⟩) ∧
    (vec2Layout = ⟨8, 8⟩ ∧ ivec2Layout = ⟨8, 8⟩ ∧ uvec2Layout = ⟨8, 8⟩ ∧
      bvec2Layout = ⟨8, 8⟩) ∧
    (vec4Layout = ⟨16, 16⟩ ∧ ivec4Layout = ⟨16, 16⟩ ∧ uvec4Layout = ⟨16, 16⟩ ∧
      bvec4Layout = ⟨16, 16⟩) ∧
    (vec3Layout = ⟨16, 16⟩ ∧ ivec3Layout = ⟨16, 16⟩ ∧ uvec3Layout = ⟨16, 16⟩ ∧
      bvec3Layout = ⟨16, 16⟩) ∧
    vec3Layout.size ≠ 12 := by
  decide

/-- Claim C2: evaluation of the validated `PointLight` aggregate.  Because the
code's `vec3` occupies 16 bytes (not std140's 12), `intensity` is placed at
byte offset 16 and the total size is 32 — not the claimed offset 12 and
size 16. -/
theorem pointlight_layout_eval :
    fieldOffsets 0 (Ty.layoutList [.prim .vec3, .prim .float]) = [0, 16] ∧
    PointLightTy.layout.size = 32 ∧
    ¬(fieldOffsets 0 (Ty.layoutList [.prim .vec3, .prim .float]) = [0, 12] ∧
      PointLightTy.layout.size = 16) := by
  decide

/-- Claim C3: for every element type `T` carrying the `Std140ArrayElement`
capability and every length `n ≥ 1`, the total size of `array<T, n>` is
`n * roundUp (size_of T) 16`: each element is stored in an
`ArrayElementWrapper<T>` slot padded on its trailing side up to the next
multiple of 16 bytes. -/
theorem array_total_size (t : Ty) (n : Nat) (_he : t.isArrayElement = true)
    (_hw : t.wf = true) (_hn : 1 ≤ n) :
    (Ty.arr t n).layout.size = n * roundUp t.layout.size 16 := by
  simp only [Ty.layout, arrayLayout, rustArrayLayout]
  rw [wrapperLayout_size (Ty.align_pos t) (Ty.align_le t)]

theorem array_total_size_witness :
    (Ty.prim .vec3).isArrayElement = true ∧ (Ty.prim .vec3).wf = true ∧ 1 ≤ 2 ∧
    (Ty.arr (.prim .vec3) 2).layout.size = 2 * roundUp (Ty.prim .vec3).layout.size 16 :=
  ⟨by decide, by decide, by decide,
    array_total_size (.prim .vec3) 2 (by decide) (by decide) (by decide)⟩

/-- Claim C4: every matrix type `matCxR` has total size
`C * roundUp (size_of vecR) 16`, independent of `R`; in particular
`mat3x2` has size `3 * roundUp 8 16 = 48`, not `3 * 8 = 24`. -/
theorem matrix_total_size :
    (mat2x2Layout.size = 2 * roundUp vec2Layout.size 16 ∧
      mat2x3Layout.size = 2 * roundUp vec3Layout.size 16 ∧
      mat2x4Layout.size = 2 * roundUp vec4Layout.size 16) ∧
    (mat3x2Layout.size = 3 * roundUp vec2Layout.size 16 ∧
      mat3x3Layout.size = 3 * roundUp vec3Layout.size 16 ∧
      mat3x4Layout.size = 3 * roundUp vec4Layout.size 16) ∧
    (mat4x2Layout.size = 4 * roundUp vec2Layout.size 16 ∧
      mat4x3Layout.size = 4 * roundUp vec3Layout.size 16 ∧
      mat4x4Layout.size = 4 * roundUp vec4Layout.size 16) ∧
    mat3x2Layout.size = 48 ∧ mat3x2Layout.size ≠ 24 := by
  decide

/-- Claim C5: every aggregate accepted by the `#[repr_std140]` validator — i.e. a
`#[repr(C, align(16))]` struct whose fields all satisfy the field capability —
has overall alignment exactly 16, total size a multiple of 16, and its fields
placed sequentially in declaration order: each field's offset is at or past
the end of the previous field. -/
theorem repr_std140_struct_layout (fs : List Ty) (_hw : Ty.wfList fs = true) :
    (Ty.strukt fs).layout.align = 16 ∧
    (Ty.strukt fs).layout.size % 16 = 0 ∧
    List.Chain' (fun a b => a.1 + a.2.size ≤ b.1)
      ((fieldOffsets 0 (Ty.layoutList fs)).zip (Ty.layoutList fs)) := by
  have halign : structAlign 16 (Ty.layoutList fs) = 16 :=
    structAlign_eq_of_le 16 _ (Ty.alignList_le fs)
  refine ⟨?_, ?_, fieldOffsets_chain _ 0 (Ty.alignList_pos fs)⟩
  · simp only [Ty.layout, reprCStruct]
    exact halign
  · simp only [Ty.layout, reprCStruct]
    rw [halign]
    exact roundUp_mod _ 16

theorem repr_std140_struct_layout_witness :
    Ty.wfList [.prim .vec3, .prim .float] = true ∧
    ((Ty.strukt [.prim .vec3, .prim .float]).layout.align = 16 ∧
      (Ty.strukt [.prim .vec3, .prim .float]).layout.size % 16 = 0 ∧
      List.Chain' (fun a b => a.1 + a.2.size ≤ b.1)
        ((fieldOffsets 0 (Ty.layoutList [.prim .vec3, .prim .float])).zip
          (Ty.layoutList [.prim .vec3, .prim .float]))) :=
  ⟨by decide, repr_std140_struct_layout [.prim .vec3, .prim .float] (by decide)⟩

/-- The shape of a `syn::DeriveInput`'s data: a struct with fields, an enum,
or a union. -/
inductive Data
  | structData (fields : List Ty)
  | enumData
  | unionData

/-- The part of a `syn::DeriveInput` that `expand_repr_std140` inspects: the
item's outer attributes (by path identifier) and its data. -/
structure DeriveInput where
  ident : String
  attrs : List String
  data : Data

/-- `has_other_repr`: whether any attribute's path is the identifier `repr`. -/
def hasOtherRepr (input : DeriveInput) : Bool :=
  input.attrs.any fun a => a == "repr"

/-- The output assembled by `expand_repr_std140` on success: it re-emits the
struct prefixed with `#[repr(C, align(16))]`, one `assert_repr_std140::<T>`
field-capability assertion per field in declaration order, and an
`unsafe impl Std140Struct` for the struct. -/
structure Expanded where
  reprC : Bool
  forcedAlign : Nat
  fieldAsserts : List Ty
  implStd140Struct : Bool

/-- `expand_repr_std140`: rejects non-struct items and structs that already
carry another `#[repr]` attribute; otherwise emits the re-attributed struct,
the per-field assertions and the `Std140Struct` impl. -/
def expandReprStd140 (input : DeriveInput) : Except String Expanded :=
  match input.data with
  | .structData fields =>
    if hasOtherRepr input then
      Except.error "Cannot parse another #[repr] attribute on a struct marked with #[repr_std140]"
    else
      Except.ok { reprC := true, forcedAlign := 16, fieldAsserts := fields,
                  implStd140Struct := true }
  | .enumData =>
    Except.error "Cannot represent an enum or union as std140, only a struct."
  | .unionData =>
    Except.error "Cannot represent an enum or union as std140, only a struct."

/-- Claim C7: the validator rejects, with a fatal explanatory error and no
partial acceptance, any non-struct item (enum or union), and any struct that
already carries another explicit `#[repr]` attribute — the latter before any
field validation is emitted (the rejection holds for every field list). -/
theorem expand_repr_std140_rejects (input : DeriveInput) :
    (input.data = Data.enumData ∨ input.data = Data.unionData →
      expandReprStd140 input =
        Except.error "Cannot represent an enum or union as std140, only a struct.") ∧
    (∀ fields : List Ty, input.data = Data.structData fields →
      hasOtherRepr input = true →
      expandReprStd140 input =
        Except.error
          "Cannot parse another #[repr] attribute on a struct marked with #[repr_std140]") := by
  constructor
  · intro h
    cases h with
    | inl h => simp [expandReprStd140, h]
    | inr h => simp [expandReprStd140, h]
  · intro fields hd hr
    simp [expandReprStd140, hd, hr]

theorem expand_repr_std140_rejects_witness :
    expandReprStd140 ⟨"NotAStruct", [], Data.enumData⟩ =
      Except.error "Cannot represent an enum or union as std140, only a struct." ∧
    expandReprStd140 ⟨"HasRepr", ["repr"], Data.structData [Ty.prim .float]⟩ =
      Except.error
        "Cannot parse another #[repr] attribute on a struct marked with #[repr_std140]" :=
  ⟨(expand_repr_std140_rejects ⟨"NotAStruct", [], Data.enumData⟩).1 (Or.inl rfl),
    (expand_repr_std140_rejects ⟨"HasRepr", ["repr"], Data.structData [Ty.prim .float]⟩).2
      [Ty.prim .float] rfl (by decide)⟩

/-- Value-level model of `ArrayElementWrapper<T>`: the element together with
the trailing padding bytes of its 16-byte-aligned slot.  The padding bytes are
physical storage, not a declared Rust field. -/
structure ArrayElementWrapper (A : Type) where
  element : A
  padBytes : List Nat

/-- The derived `PartialEq` for `ArrayElementWrapper` compares the declared
fields — only `element`; padding bytes are not fields and never participate. -/
def wrapperEq {A : Type} (eqA : A → A → Bool) (w1 w2 : ArrayElementWrapper A) : Bool :=
  eqA w1.element w2.element

/-- Value-level model of `array<T, LEN>`: a fixed-length sequence of wrapped
elements. -/
structure array (A : Type) (n : Nat) where
  internal : Fin n → ArrayElementWrapper A

/-- `PartialEq for array`: compares `internal[i]` with `other.internal[i]` for
every `i` in `0..LEN` (the source loop returns `false` at the first
mismatch). -/
def array.eq {A : Type} {n : Nat} (eqA : A → A → Bool) (a b : array A n) : Bool :=
  (List.finRange n).all fun i => wrapperEq eqA (a.internal i) (b.internal i)

/-- Claim C8: two `array` values are equal exactly when their corresponding
logical elements are pairwise equal, and the padding bytes of the 16-byte
slots never influence the comparison (replacing every padding list in both
operands leaves the result unchanged). -/
theorem array_eq_iff {A : Type} {n : Nat} (eqA : A → A → Bool) (a b : array A n) :
    (array.eq eqA a b = true ↔
      ∀ i : Fin n, eqA (a.internal i).element (b.internal i).element = true) ∧
    (∀ p q : Fin n → List Nat,
      array.eq eqA
        ⟨fun i => ⟨(a.internal i).element, p i⟩⟩
        ⟨fun i => ⟨(b.internal i).element, q i⟩⟩ = array.eq eqA a b) := by
  constructor
  · simp [array.eq, wrapperEq, List.all_eq_true, List.mem_finRange]
  · intro p q
    rfl

/-- The `#[repr(u32)] enum boolean` of the catalog, with discriminants
`True = 1` and `False = 0`. -/
inductive boolean
  | True
  | False
deriving DecidableEq

/-- The 32-bit discriminant each `boolean` variant is stored as. -/
def boolean.toU32 : boolean → Nat
  | .True => 1
  | .False => 0

/-- `impl From<bool> for boolean`. -/
def boolean.fromBool : Bool → boolean
  | true => .True
  | false => .False

/-- Claim C9: the `From<bool>` conversion sends `true` to `boolean::True`
(stored as the 32-bit value 1) and `false` to `boolean::False` (stored as 0);
every `bool` maps to exactly the corresponding variant. -/
theorem boolean_from_bool :
    (∀ b : Bool, boolean.fromBool b = cond b boolean.True boolean.False) ∧
    boolean.fromBool true = boolean.True ∧
    boolean.fromBool false = boolean.False ∧
    (boolean.fromBool true).toU32 = 1 ∧
    (boolean.fromBool false).toU32 = 0 := by
  decide

/-- Bit-pattern model of Rust `f32` components: no verified operation performs
float arithmetic, components are only stored and retrieved. -/
abbrev F32 : Type := Nat

/-- Model of Rust `i32` components. -/
abbrev I32 : Type := Int

/-- Model of Rust `u32` components. -/
abbrev U32 : Type := Nat

/-- Shape shared by the catalog's 2-component vector structs
(`vec2(f32, f32)`, `ivec2(i32, i32)`, `uvec2(u32, u32)`,
`bvec2(boolean, boolean)`): a tuple struct of two components of one kind.
The `Index`/`IndexMut` implementations of the four types are textually
identical up to the component type. -/
structure Vec2 (A : Type) where
  c0 : A
  c1 : A

/-- `Index<usize>` for a 2-vector: positions 0 and 1 return the component,
anything else panics with an out-of-bounds error (modelled as `none`). -/
def Vec2.index {A : Type} (v : Vec2 A) : Nat → Option A
  | 0 => some v.c0
  | 1 => some v.c1
  | _ => none

/-- `IndexMut<usize>` for a 2-vector followed by a write through the returned
reference: positions 0 and 1 update that component, anything else panics
before any write (modelled as `none`). -/
def Vec2.indexSet {A : Type} (v : Vec2 A) : Nat → A → Option (Vec2 A)
  | 0, x => some ⟨x, v.c1⟩
  | 1, x => some ⟨v.c0, x⟩
  | _, _ => none

/-- Shape shared by the catalog's 3-component vector structs. -/
structure Vec3 (A : Type) where
  c0 : A
  c1 : A
  c2 : A

/-- `Index<usize>` for a 3-vector. -/
def Vec3.index {A : Type} (v : Vec3 A) : Nat → Option A
  | 0 => some v.c0
  | 1 => some v.c1
  | 2 => some v.c2
  | _ => none

/-- `IndexMut<usize>` for a 3-vector followed by a write. -/
def Vec3.indexSet {A : Type} (v : Vec3 A) : Nat → A → Option (Vec3 A)
  | 0, x => some ⟨x, v.c1, v.c2⟩
  | 1, x => some ⟨v.c0, x, v.c2⟩
  | 2, x => some ⟨v.c0, v.c1, x⟩
  | _, _ => none

/-- Shape shared by the catalog's 4-component vector structs. -/
structure Vec4 (A : Type) where
  c0 : A
  c1 : A
  c2 : A
  c3 : A

/-- `Index<usize>` for a 4-vector. -/
def Vec4.index {A : Type} (v : Vec4 A) : Nat → Option A
  | 0 => some v.c0
  | 1 => some v.c1
  | 2 => some v.c2
  | 3 => some v.c3
  | _ => none

/-- `IndexMut<usize>` for a 4-vector followed by a write. -/
def Vec4.indexSet {A : Type} (v : Vec4 A) : Nat → A → Option (Vec4 A)
  | 0, x => some ⟨x, v.c1, v.c2, v.c3⟩
  | 1, x => some ⟨v.c0, x, v.c2, v.c3⟩
  | 2, x => some ⟨v.c0, v.c1, x, v.c3⟩
  | 3, x => some ⟨v.c0, v.c1, v.c2, x⟩
  | _, _ => none

/-- The twelve vector value types of the catalog. -/
abbrev vec2 := Vec2 F32
abbrev vec3 := Vec3 F32
abbrev vec4 := Vec4 F32
abbrev ivec2 := Vec2 I32
abbrev ivec3 := Vec3 I32
abbrev ivec4 := Vec4 I32
abbrev uvec2 := Vec2 U32
abbrev uvec3 := Vec3 U32
abbrev uvec4 := Vec4 U32
abbrev bvec2 := Vec2 boolean
abbrev bvec3 := Vec3 boolean
abbrev bvec4 := Vec4 boolean

/-- Claim C10: for every catalog vector type (an instance of `Vec2`, `Vec3`
or `Vec4` at a component type) and every in-range position `i`, writing
through `index_mut` at `i` succeeds, reading position `i` back returns the
written value, and every other in-range position is unchanged. -/
theorem vector_index_set_get {A : Type} :
    (∀ (v : Vec2 A) (i : Nat) (x : A), i < 2 →
      ∃ v', Vec2.indexSet v i x = some v' ∧ Vec2.index v' i = some x ∧
        ∀ j : Nat, j < 2 → j ≠ i → Vec2.index v' j = Vec2.index v j) ∧
    (∀ (v : Vec3 A) (i : Nat) (x : A), i < 3 →
      ∃ v', Vec3.indexSet v i x = some v' ∧ Vec3.index v' i = some x ∧
        ∀ j : Nat, j < 3 → j ≠ i → Vec3.index v' j = Vec3.index v j) ∧
    (∀ (v : Vec4 A) (i : Nat) (x : A), i < 4 →
      ∃ v', Vec4.indexSet v i x = some v' ∧ Vec4.index v' i = some x ∧
        ∀ j : Nat, j < 4 → j ≠ i → Vec4.index v' j = Vec4.index v j) := by
  refine ⟨?_, ?_, ?_⟩ <;>
    · intro v i x h
      interval_cases i <;>
        · refine ⟨_, rfl, rfl, ?_⟩
          intro j hj hne
          interval_cases j <;> first | exact absurd rfl hne | rfl

theorem vector_index_set_get_witness :
    ∃ v' : vec3, Vec3.indexSet (⟨1, 2, 3⟩ : vec3) 1 9 = some v' ∧
      Vec3.index v' 1 = some 9 ∧
      ∀ j : Nat, j < 3 → j ≠ 1 → Vec3.index v' j = Vec3.index (⟨1, 2, 3⟩ : vec3) j :=
  (@vector_index_set_get F32).2.1 ⟨1, 2, 3⟩ 1 9 (by decide)

end Std140
